import Mathlib

/-!
Verification of the MCP search/fetch server (main.py, main_azure.py).

Strings are modelled as lists of characters (`Str`), Python text
operations (`lower`, `strip`, `split`) are embedded directly, and each
tool function becomes a total Lean function whose external calls
(OpenAI vector store, Azure AI Search) are parameters describing the
outcome of the outbound call.  JSON output dictionaries whose key
presence matters are modelled as association lists over a small JSON
value type.
-/

namespace MCP

/-- Python strings as lists of characters. -/
abbrev Str := List Char

/-- The whitespace characters recognised by Python's `str.strip()` /
`str.split()` with no arguments. -/
def pyIsSpace (c : Char) : Bool :=
  c == ' ' || c == '\t' || c == '\n' || c == '\r' || c == '\x0b' || c == '\x0c'

/-- Python `str.lower()` (character-wise). -/
def pyLower (s : Str) : Str := s.map Char.toLower

/-- Python `str.strip()`: remove leading and trailing whitespace. -/
def pyStrip (s : Str) : Str :=
  ((s.dropWhile pyIsSpace).reverse.dropWhile pyIsSpace).reverse

/-- Worker for `pySplit`: `cur` holds the reversed current token. -/
def pySplitAux : Str → Str → List Str
  | [], cur => if cur.isEmpty then [] else [cur.reverse]
  | c :: rest, cur =>
    if pyIsSpace c then
      if cur.isEmpty then pySplitAux rest [] else cur.reverse :: pySplitAux rest []
    else pySplitAux rest (c :: cur)

/-- Python `str.split()` with no arguments: split on whitespace runs,
discarding empty tokens. -/
def pySplit (s : Str) : List Str := pySplitAux s []

/-- `sep.join(fields)` for a one-character separator. -/
def joinSep (sep : Char) : List Str → Str
  | [] => []
  | [x] => x
  | x :: y :: rest => x ++ sep :: joinSep sep (y :: rest)

/-- The emptiness test `not s or not s.strip()` guarding both search tools. -/
def blankQuery (s : Str) : Bool := s.isEmpty || (pyStrip s).isEmpty

/-- The fixed three-character ellipsis marker appended to truncated snippets. -/
def ellipsis : Str := ".".toList ++ ".".toList ++ ".".toList

/-- The conditional snippet builder used at main.py:130 and
main_azure.py:140/269:
`text[:200] + "..." if len(text) > 200 else text`. -/
def snippet (t : Str) : Str :=
  if t.length > 200 then t.take 200 ++ ellipsis else t

/-- A local document record loaded from `sample_data.json` (main.py).
`none` models an absent key; metadata values are carried in string form. -/
structure Record where
  id : Str
  title : Option Str
  text : Option Str
  content : Option Str
  url : Option Str
  metadata : Option (List (Str × Str))
  deriving DecidableEq, Repr

/-- A search result of the main.py paths: dict with keys `id`, `title`,
`text`, and optionally `url` (`none` = key absent). -/
structure SearchResult where
  id : Str
  title : Str
  text : Str
  url : Option Str
  deriving DecidableEq, Repr

/-- The `{"results": [...]}` dictionary returned by main.py search. -/
structure SearchOutput where
  results : List SearchResult
  deriving DecidableEq, Repr

/-- The synthesized title `f"Document {id}"`. -/
def defaultTitle (id : Str) : Str := "Document ".toList ++ id

/-- The searchable fields of a record in `_fallback_local_search`
(main.py:258-267): title, text, content, then all metadata values. -/
def searchableFields (r : Record) : List Str :=
  [r.title.getD [], r.text.getD [], r.content.getD []] ++
    (r.metadata.getD []).map (fun kv => kv.2)

/-- `" ".join(searchable_fields).lower()` (main.py:270). -/
def searchableText (r : Record) : Str :=
  pyLower (joinSep ' ' (searchableFields r))

/-- `query.lower().strip().split()` (main.py:250). -/
def queryTokens (q : Str) : List Str := pySplit (pyStrip (pyLower q))

/-- Python's substring test `needle in haystack`. -/
def isSubstring (needle : Str) : Str → Bool
  | [] => needle.isEmpty
  | c :: rest => needle.isPrefixOf (c :: rest) || isSubstring needle rest

/-- `any(token in searchable_text for token in query_tokens)` (main.py:273). -/
def recordMatches (q : Str) (r : Record) : Bool :=
  (queryTokens q).any (fun tok => isSubstring tok (searchableText r))

/-- Projection of a matching record into a fallback search result
(main.py:275-285).  Note the snippet here is `[:200] + "..."`
unconditionally, and `url` is added only when present and truthy. -/
def mkFallbackResult (r : Record) : SearchResult :=
  { id := r.id
  , title := r.title.getD (defaultTitle r.id)
  , text := (r.text.getD (r.content.getD [])).take 200 ++ ellipsis
  , url := match r.url with
           | some u => if u.isEmpty then none else some u
           | none => none }

/-- `_fallback_local_search` (main.py:245-288). -/
def fallbackLocalSearch (records : List Record) (query : Str) : SearchOutput :=
  if (queryTokens query).isEmpty then ⟨[]⟩
  else ⟨(records.filter (fun r => recordMatches query r)).map mkFallbackResult⟩

/-! ## Semantic adapter: `search` in main.py -/

/-- Decimal rendering of a natural number, for `f"vs_{i}"` defaults. -/
def natToStr (n : Nat) : Str := (toString n).toList

/-- One element of a vector-store hit's `content` array; `text` is
`none` when the item carries no usable text. -/
structure VSContentItem where
  text : Option Str
  deriving DecidableEq, Repr

/-- One hit of the OpenAI vector-store search response. -/
structure VSItem where
  file_id : Option Str
  filename : Option Str
  content : List VSContentItem
  deriving DecidableEq, Repr

/-- The vector-store search response (`response.data`). -/
structure VSResponse where
  data : List VSItem
  deriving DecidableEq, Repr

/-- Content extraction of main.py:116-127: the first content item's
text, with the `"No content available"` placeholder when empty. -/
def extractVSText (item : VSItem) : Str :=
  let raw := match item.content with
             | [] => []
             | c :: _ => c.text.getD []
  if raw.isEmpty then "No content available".toList else raw

/-- One search result built from the `i`-th vector-store hit
(main.py:110-136). -/
def mkVSResult (i : Nat) (item : VSItem) : SearchResult :=
  { id := item.file_id.getD ("vs_".toList ++ natToStr i)
  , title := item.filename.getD ("Document ".toList ++ natToStr (i + 1))
  , text := snippet (extractVSText item)
  , url := none }

/-- The `for i, item in enumerate(response.data)` loop of main.py:110-138. -/
def processVSData : Nat → List VSItem → List SearchResult
  | _, [] => []
  | i, item :: rest => mkVSResult i item :: processVSData (i + 1) rest

/-- Outcome of the primary (vector-store) backend attempt: the client
may be unconfigured, the outbound call may raise, or it returns a
response. -/
inductive PrimaryOutcome where
  | noClient
  | failure
  | success (resp : VSResponse)
  deriving DecidableEq, Repr

/-- The `search` tool of main.py (lines 72-147).  The error type is
`Str`; the function is total precisely because every failure path of
the source is caught and routed to the local fallback. -/
def semanticSearch (records : List Record) (query : Str)
    (outcome : PrimaryOutcome) : Except Str SearchOutput :=
  if blankQuery query then .ok ⟨[]⟩
  else
    match outcome with
    | .noClient => .ok (fallbackLocalSearch records query)
    | .failure => .ok (fallbackLocalSearch records query)
    | .success resp => .ok ⟨processVSData 0 resp.data⟩

/-! ## JSON values, for output dictionaries whose key presence matters -/

/-- A minimal JSON value. -/
inductive JVal where
  | null : JVal
  | str : Str → JVal
  | num : Int → JVal
  | obj : List (Str × JVal) → JVal

/-- `null` for a missing source value, the string otherwise. -/
def optToJ : Option Str → JVal
  | none => .null
  | some s => .str s

/-- The key set of an output dictionary. -/
def dictKeys (d : List (Str × JVal)) : List Str := d.map (fun kv => kv.1)

/-! ## `fetch` in main.py -/

/-- Python dict insertion for string keys: first-occurrence position is
kept, the stored value is the last one written. -/
def insertKey : List (Str × Record) → Str → Record → List (Str × Record)
  | [], k, v => [(k, v)]
  | (k', v') :: rest, k, v =>
    if k' = k then (k, v) :: rest else (k', v') :: insertKey rest k v

/-- `LOOKUP = {record["id"]: record for record in RECORDS}` (main.py:46). -/
def buildLookup (records : List Record) : List (Str × Record) :=
  records.foldl (fun acc r => insertKey acc r.id r) []

/-- The identifiers known to the lookup mapping, in insertion order. -/
def lookupKeys (l : List (Str × Record)) : List Str := l.map (fun kv => kv.1)

/-- Errors raised by the main.py `fetch` tool. -/
inductive FetchError where
  | emptyId
  | notFound (id : Str) (available : List Str)
  deriving DecidableEq, Repr

/-- Combined outcome of the two vector-store calls of the `file-` fetch
path (content + metadata); `failure` when either call raises. -/
inductive VectorFetchOutcome where
  | ok (data : List (Option Str)) (attributes : Option (List (Str × Str)))
  | failure
  deriving DecidableEq, Repr

/-- The result dictionary of the vector-store fetch path
(main.py:187-207): chunks joined by newlines, placeholder when the
response carries no data, metadata only when attributes are truthy. -/
def mkVectorFetchResult (id : Str) (data : List (Option Str))
    (attrs : Option (List (Str × Str))) : List (Str × JVal) :=
  let fileContent :=
    if data.isEmpty then "No content available".toList
    else joinSep '\n' (data.filterMap (fun x => x))
  [("id".toList, .str id),
   ("title".toList, .str ("Document ".toList ++ id)),
   ("text".toList, .str fileContent)] ++
  (match attrs with
   | some a => if a.isEmpty then [] else
       [("metadata".toList, .obj (a.map (fun kv => (kv.1, JVal.str kv.2))))]
   | none => [])

/-- The result dictionary of the local fetch path (main.py:227-238):
required `id`/`title`/`text`, then `url` and `metadata` only when the
source value is present and truthy. -/
def mkLocalFetchResult (doc : Record) : List (Str × JVal) :=
  [("id".toList, .str doc.id),
   ("title".toList, .str (doc.title.getD (defaultTitle doc.id))),
   ("text".toList, .str (doc.text.getD (doc.content.getD [])))] ++
  (match doc.url with
   | some u => if u.isEmpty then [] else [("url".toList, JVal.str u)]
   | none => []) ++
  (match doc.metadata with
   | some m => if m.isEmpty then [] else
       [("metadata".toList, .obj (m.map (fun kv => (kv.1, JVal.str kv.2))))]
   | none => [])

/-- The local-lookup tail of main.py `fetch` (lines 217-241): not-found
error listing the first 5 known ids, else the local result dictionary. -/
def localFetchPath (records : List Record) (id : Str) :
    Except FetchError (List (Str × JVal)) :=
  match (buildLookup records).lookup id with
  | none => .error (.notFound id ((lookupKeys (buildLookup records)).take 5))
  | some doc => .ok (mkLocalFetchResult doc)

/-- The `fetch` tool of main.py (lines 150-241): empty id is an
immediate error; a `file-`-prefixed id with a configured client tries
the vector store and falls through to the local lookup on failure; the
local not-found error lists the first 5 known identifiers. -/
def mainFetch (records : List Record) (id : Str) (clientPresent : Bool)
    (vector : VectorFetchOutcome) : Except FetchError (List (Str × JVal)) :=
  if id.isEmpty then .error .emptyId
  else if "file-".toList.isPrefixOf id && clientPresent then
    match vector with
    | .ok data attrs => .ok (mkVectorFetchResult id data attrs)
    | .failure => localFetchPath records id
  else localFetchPath records id

/-! ## Managed-index adapter: main_azure.py -/

/-- `top = min(max(1, top), 20)` (main_azure.py:113 and 243). -/
def clampTop (top : Int) : Int := min (max 1 top) 20

/-- One hit of the Azure AI Search response, projected on the selected
fields; `none` models a missing field (Python `item.get(...) = None`).
The score is carried as an abstract integer since the adapter only
copies it. -/
structure AzureItem where
  id : Option Str
  title : Option Str
  text : Option Str
  url : Option Str
  score : Option Int
  category : Option Str
  author : Option Str
  date : Option Str
  deriving DecidableEq, Repr

/-- The result dictionary built from one Azure hit
(main_azure.py:137-153 and 267-282): every key is always emitted,
missing sources become `null`, and the score defaults to `0`. -/
def mkAzureSearchItem (item : AzureItem) : List (Str × JVal) :=
  [("id".toList, optToJ item.id),
   ("title".toList, optToJ item.title),
   ("text".toList, .str (snippet (item.text.getD []))),
   ("url".toList, optToJ item.url),
   ("score".toList, .num (item.score.getD 0)),
   ("category".toList, optToJ item.category),
   ("author".toList, optToJ item.author),
   ("date".toList, optToJ item.date)]

/-- The `{"results": [...]}` dictionary of the Azure search tools. -/
structure AzureSearchOutput where
  results : List (List (Str × JVal))

/-- The error message raised when the Azure clients are missing. -/
def azureClientsError : Str :=
  "Azure OpenAI and Search clients are required".toList

/-- The Azure `search` tool (main_azure.py:89-160).  `call` abstracts
the embedding call plus index query as a function of the clamped `top`;
its error is re-raised unchanged (`raise` at line 160). -/
def azureSearch (query : Str) (top : Int) (clients : Bool)
    (call : Int → Except Str (List AzureItem)) : Except Str AzureSearchOutput :=
  if blankQuery query then .ok ⟨[]⟩
  else if !clients then .error azureClientsError
  else
    match call (clampTop top) with
    | .error e => .error e
    | .ok items => .ok ⟨items.map mkAzureSearchItem⟩

/-- The Azure `hybrid_search` tool (main_azure.py:217-289): same
guards, same clamping, same per-hit projection; `useSemantic` is
accepted and unused, as in the source. -/
def hybridSearch (query : Str) (top : Int) (useSemantic : Bool) (clients : Bool)
    (call : Int → Except Str (List AzureItem)) : Except Str AzureSearchOutput :=
  if blankQuery query then .ok ⟨[]⟩
  else if !clients then .error azureClientsError
  else
    match call (clampTop top) with
    | .error e => .error e
    | .ok items => .ok ⟨items.map mkAzureSearchItem⟩

/-- A document stored in the Azure index (schema of load_jsondata.py):
both `text` and `content` fields exist in the index. -/
structure AzureDoc where
  id : Option Str
  title : Option Str
  text : Option Str
  content : Option Str
  url : Option Str
  category : Option Str
  author : Option Str
  date : Option Str
  tags : Option Str
  deriving DecidableEq, Repr

/-- The fetch result dictionary of main_azure.py:196-207: the `text`
key carries the document's `content` field, and the `metadata` object
is always present with its four fixed keys. -/
def mkAzureFetchResult (doc : AzureDoc) : List (Str × JVal) :=
  [("id".toList, optToJ doc.id),
   ("title".toList, optToJ doc.title),
   ("text".toList, optToJ doc.content),
   ("url".toList, optToJ doc.url),
   ("metadata".toList, .obj
     [("category".toList, optToJ doc.category),
      ("author".toList, optToJ doc.author),
      ("date".toList, optToJ doc.date),
      ("tags".toList, optToJ doc.tags)])]

/-- `f"Failed to fetch document {id}: {e}"` (main_azure.py:214). -/
def azureFetchWrap (id : Str) (e : Str) : Str :=
  "Failed to fetch document ".toList ++ id ++ ": ".toList ++ e

/-- The Azure `fetch` tool (main_azure.py:163-214): empty id and
missing client are immediate errors; a raising or empty `get_document`
is wrapped into a `Failed to fetch` error. -/
def azureFetch (id : Str) (clients : Bool)
    (call : Except Str (Option AzureDoc)) : Except Str (List (Str × JVal)) :=
  if id.isEmpty then .error "Document ID is required".toList
  else if !clients then .error "Azure Search client is required".toList
  else
    match call with
    | .error e => .error (azureFetchWrap id e)
    | .ok none => .error (azureFetchWrap id ("Document not found: ".toList ++ id))
    | .ok (some doc) => .ok (mkAzureFetchResult doc)

/-- `True` exactly on successful results; the "fetch succeeds"
predicate of the claims. -/
def exceptOk {ε α : Type} : Except ε α → Bool
  | .ok _ => true
  | .error _ => false

/-! ## Helper lemmas -/

theorem pyIsSpace_toLower {c : Char} (h : pyIsSpace c = true) :
    pyIsSpace (Char.toLower c) = true := by
  simp only [pyIsSpace, Bool.or_eq_true, beq_iff_eq] at h
  rcases h with ((((h | h) | h) | h) | h) | h <;> subst h <;> decide

theorem mem_of_mem_pyStrip {c : Char} {s : Str} (h : c ∈ pyStrip s) : c ∈ s := by
  unfold pyStrip at h
  rw [List.mem_reverse] at h
  have h1 : c ∈ (s.dropWhile pyIsSpace).reverse :=
    (List.dropWhile_sublist _).mem h
  rw [List.mem_reverse] at h1
  exact (List.dropWhile_sublist _).mem h1

theorem pySplitAux_all_space {s : Str} (h : ∀ c ∈ s, pyIsSpace c = true) :
    pySplitAux s [] = [] := by
  induction s with
  | nil => rfl
  | cons c rest ih =>
    have hc : pyIsSpace c = true := h c (List.mem_cons_self c rest)
    simp only [pySplitAux, hc, if_true, List.isEmpty_nil]
    exact ih (fun x hx => h x (List.mem_cons_of_mem c hx))

theorem all_space_of_pyStrip_eq_nil {s : Str} (h : pyStrip s = []) :
    ∀ c ∈ s, pyIsSpace c = true := by
  unfold pyStrip at h
  rw [List.reverse_eq_nil_iff, List.dropWhile_eq_nil_iff] at h
  intro c hc
  rcases List.mem_append.1
      ((List.takeWhile_append_dropWhile (p := pyIsSpace) (l := s)) ▸ hc) with h1 | h1
  · exact List.mem_takeWhile_imp h1
  · exact h c (List.mem_reverse.2 h1)

theorem queryTokens_eq_nil_of_blank {q : Str} (h : blankQuery q = true) :
    queryTokens q = [] := by
  unfold blankQuery at h
  rw [Bool.or_eq_true, List.isEmpty_iff, List.isEmpty_iff] at h
  rcases h with h | h
  · subst h; rfl
  · have hall : ∀ c ∈ q, pyIsSpace c = true := all_space_of_pyStrip_eq_nil h
    have hlow : ∀ c ∈ pyLower q, pyIsSpace c = true := by
      intro c hc
      rcases List.mem_map.1 hc with ⟨c', hc', rfl⟩
      exact pyIsSpace_toLower (hall c' hc')
    have hstrip : ∀ c ∈ pyStrip (pyLower q), pyIsSpace c = true :=
      fun c hc => hlow c (mem_of_mem_pyStrip hc)
    exact pySplitAux_all_space hstrip

theorem fallbackLocalSearch_blank {records : List Record} {q : Str}
    (h : blankQuery q = true) : fallbackLocalSearch records q = ⟨[]⟩ := by
  unfold fallbackLocalSearch
  rw [queryTokens_eq_nil_of_blank h]
  rfl

/-- The semantic adapter on a failed or unconfigured primary backend
returns exactly the local fallback's answer. -/
theorem semanticSearch_eq_fallback_of_fail (records : List Record) (q : Str)
    (outcome : PrimaryOutcome)
    (h : outcome = .noClient ∨ outcome = .failure) :
    semanticSearch records q outcome = .ok (fallbackLocalSearch records q) := by
  unfold semanticSearch
  by_cases hb : blankQuery q = true
  · rw [fallbackLocalSearch_blank hb]
    simp [hb]
  · rcases h with h | h <;> subst h <;> simp [hb]

theorem isSubstring_iff (needle haystack : Str) :
    isSubstring needle haystack = true ↔ needle <:+: haystack := by
  induction haystack with
  | nil =>
    simp only [isSubstring, List.isEmpty_iff]
    constructor
    · intro h; subst h; exact List.nil_infix
    · intro h; exact List.eq_nil_of_infix_nil h
  | cons c rest ih =>
    simp only [isSubstring, Bool.or_eq_true, ih]
    rw [List.infix_cons_iff, List.isPrefixOf_iff_prefix]

theorem lookup_isSome_iff {β : Type} (l : List (Str × β)) (k : Str) :
    (l.lookup k).isSome = true ↔ k ∈ l.map (fun kv => kv.1) := by
  induction l with
  | nil =>
    exact ⟨fun h => absurd h (by rw [List.lookup_nil]; exact Bool.false_ne_true),
           fun h => absurd h (List.not_mem_nil k)⟩
  | cons kv rest ih =>
    obtain ⟨k', v'⟩ := kv
    rw [List.lookup_cons, List.map_cons, List.mem_cons]
    by_cases h : k = k'
    · subst h
      rw [beq_self_eq_true]
      exact ⟨fun _ => Or.inl rfl, fun _ => rfl⟩
    · have hbeq : (k == k') = false := beq_eq_false_iff_ne.2 h
      rw [hbeq, ih]
      exact ⟨fun hh => Or.inr hh, fun hh => hh.elim (fun he => absurd he h) id⟩

theorem lookup_eq_none_iff {β : Type} (l : List (Str × β)) (k : Str) :
    l.lookup k = none ↔ k ∉ l.map (fun kv => kv.1) := by
  rw [← lookup_isSome_iff]
  cases l.lookup k <;> simp

/-! ## Claim theorems -/

/-- Claim C1, counterexample: the local keyword fallback violates the
snippet rule.  For a record whose text is `"short"` (length 5 ≤ 200),
the fallback's result text is `"short..."`, not the text unchanged. -/
theorem C1_counterexample :
    ((fallbackLocalSearch
        [{ id := "a".toList, title := some "T".toList,
           text := some "short".toList, content := none,
           url := none, metadata := none }]
        "short".toList).results.map (fun x => x.text)) = ["short...".toList] ∧
    ("short".toList).length ≤ 200 ∧
    "short...".toList ≠ "short".toList := by
  refine ⟨by decide, by decide, by decide⟩

/-- Claim C1, amended: the semantic adapter and the managed-index
adapter build their snippet with the conditional rule (text unchanged
when its length is ≤ 200, else the first 200 characters plus the fixed
3-character marker, total length 203 and a prefix of the input plus the
marker); the local keyword fallback instead always appends the marker
to the first 200 characters, even for short text. -/
theorem C1_theorem :
    (∀ t : Str, t.length ≤ 200 → snippet t = t) ∧
    (∀ t : Str, t.length > 200 →
      snippet t = t.take 200 ++ ellipsis ∧ (snippet t).length = 203 ∧
      t.take 200 <+: t ∧ ellipsis.length = 3) ∧
    (∀ (i : Nat) (item : VSItem),
      (mkVSResult i item).text = snippet (extractVSText item)) ∧
    (∀ item : AzureItem,
      List.lookup "text".toList (mkAzureSearchItem item) =
        some (.str (snippet (item.text.getD [])))) ∧
    (∀ r : Record,
      (mkFallbackResult r).text =
        (r.text.getD (r.content.getD [])).take 200 ++ ellipsis) := by
  refine ⟨?_, ?_, fun i item => rfl, fun item => rfl, fun r => rfl⟩
  · intro t h
    unfold snippet
    rw [if_neg (by omega)]
  · intro t h
    refine ⟨by unfold snippet; rw [if_pos (by omega)], ?_, ?_, by decide⟩
    · unfold snippet
      rw [if_pos (by omega)]
      simp only [List.length_append, List.length_take]
      have : ellipsis.length = 3 := by decide
      omega
    · exact ⟨t.drop 200, List.take_append_drop 200 t⟩

/-- Claim C1, witness: the amended theorem applied at a short string
and at a 250-character string. -/
theorem C1_witness :
    snippet "ab".toList = "ab".toList ∧
    (snippet (List.replicate 250 'a')).length = 203 :=
  ⟨C1_theorem.1 _ (by decide),
   (C1_theorem.2.1 (List.replicate 250 'a')
     (by rw [List.length_replicate]; omega)).2.1⟩

/-- Claim C9: both Azure search tools clamp `top` to [1, 20]: values
below 1 behave as 1, above 20 behave as 20, and `top=0`/`top=999`
behave exactly as `top=1`/`top=20` at the tool level. -/
theorem C9_theorem :
    (∀ t : Int, 1 ≤ clampTop t ∧ clampTop t ≤ 20) ∧
    (∀ t : Int, t < 1 → clampTop t = 1) ∧
    (∀ t : Int, 20 < t → clampTop t = 20) ∧
    (∀ t : Int, 1 ≤ t → t ≤ 20 → clampTop t = t) ∧
    (∀ q clients call, azureSearch q 0 clients call = azureSearch q 1 clients call) ∧
    (∀ q clients call, azureSearch q 999 clients call = azureSearch q 20 clients call) ∧
    (∀ q us clients call, hybridSearch q 0 us clients call = hybridSearch q 1 us clients call) ∧
    (∀ q us clients call, hybridSearch q 999 us clients call = hybridSearch q 20 us clients call) := by
  have hc : ∀ t : Int, clampTop t = min (max 1 t) 20 := fun t => rfl
  refine ⟨?_, ?_, ?_, ?_, ?_, ?_, ?_, ?_⟩
  · intro t; rw [hc, max_def, min_def]; constructor <;> split_ifs <;> omega
  · intro t h; rw [hc, max_def, min_def]; split_ifs <;> omega
  · intro t h; rw [hc, max_def, min_def]; split_ifs <;> omega
  · intro t h1 h2; rw [hc, max_def, min_def]; split_ifs <;> omega
  · intro q clients call
    unfold azureSearch
    rw [show clampTop 0 = clampTop 1 from by decide]
  · intro q clients call
    unfold azureSearch
    rw [show clampTop 999 = clampTop 20 from by decide]
  · intro q us clients call
    unfold hybridSearch
    rw [show clampTop 0 = clampTop 1 from by decide]
  · intro q us clients call
    unfold hybridSearch
    rw [show clampTop 999 = clampTop 20 from by decide]

/-- Claim C9, witness: the clamp at `-5`, `999` and `7`. -/
theorem C9_witness :
    clampTop (-5) = 1 ∧ clampTop 999 = 20 ∧ clampTop 7 = 7 :=
  ⟨C9_theorem.2.1 (-5) (by decide),
   C9_theorem.2.2.1 999 (by decide),
   C9_theorem.2.2.2.1 7 (by decide) (by decide)⟩

/-- Claim C2: on any primary failure (missing client or raising call)
the semantic adapter's search returns the local keyword fallback's
answer and never raises (it is `.ok` on every input), while the
managed-index adapter's search surfaces the failure: a missing client
becomes the clients-required error and a raising call is re-raised
unchanged, with no local fallback. -/
theorem C2_theorem :
    (∀ (records : List Record) (q : Str) (outcome : PrimaryOutcome),
       outcome = .noClient ∨ outcome = .failure →
       semanticSearch records q outcome = .ok (fallbackLocalSearch records q)) ∧
    (∀ (records : List Record) (q : Str) (outcome : PrimaryOutcome),
       ∃ out, semanticSearch records q outcome = .ok out) ∧
    (∀ (q : Str) (top : Int) (call : Int → Except Str (List AzureItem)),
       blankQuery q = false →
       azureSearch q top false call = .error azureClientsError) ∧
    (∀ (q : Str) (top : Int) (e : Str),
       blankQuery q = false →
       azureSearch q top true (fun _ => .error e) = .error e) := by
  refine ⟨semanticSearch_eq_fallback_of_fail, ?_, ?_, ?_⟩
  · intro records q outcome
    unfold semanticSearch
    by_cases hb : blankQuery q = true
    · exact ⟨⟨[]⟩, by simp [hb]⟩
    · cases outcome with
      | noClient => exact ⟨fallbackLocalSearch records q, by simp [hb]⟩
      | failure => exact ⟨fallbackLocalSearch records q, by simp [hb]⟩
      | success resp => exact ⟨⟨processVSData 0 resp.data⟩, by simp [hb]⟩
  · intro q top call h
    simp [azureSearch, h]
  · intro q top e h
    simp [azureSearch, h]

/-- Claim C2, witness: the semantic adapter at a failing backend, and
the Azure adapter at a missing client and at a raising call. -/
theorem C2_witness :
    semanticSearch [] "hi".toList .noClient =
      .ok (fallbackLocalSearch [] "hi".toList) ∧
    azureSearch "hi".toList 5 false (fun _ => .ok []) = .error azureClientsError ∧
    azureSearch "hi".toList 5 true (fun _ => .error "boom".toList) =
      .error "boom".toList :=
  ⟨C2_theorem.1 [] _ _ (Or.inl rfl),
   C2_theorem.2.2.1 _ 5 _ (by decide),
   C2_theorem.2.2.2 _ 5 _ (by decide)⟩

/-- Claim C3: a query that is empty or whitespace-only makes every
search tool return `{"results": []}` successfully, independently of the
backend outcome (so no backend call can matter); fetch with an empty id
raises an immediate error in both implementations, independently of any
resolution path. -/
theorem C3_theorem :
    (∀ (records : List Record) (q : Str) (outcome : PrimaryOutcome),
       blankQuery q = true → semanticSearch records q outcome = .ok ⟨[]⟩) ∧
    (∀ (q : Str) (top : Int) (clients : Bool) call,
       blankQuery q = true → azureSearch q top clients call = .ok ⟨[]⟩) ∧
    (∀ (q : Str) (top : Int) (us clients : Bool) call,
       blankQuery q = true → hybridSearch q top us clients call = .ok ⟨[]⟩) ∧
    (∀ (records : List Record) (clients : Bool) (vector : VectorFetchOutcome),
       mainFetch records [] clients vector = .error .emptyId) ∧
    (∀ (clients : Bool) (call : Except Str (Option AzureDoc)),
       azureFetch [] clients call = .error "Document ID is required".toList) := by
  refine ⟨?_, ?_, ?_, fun records clients vector => rfl, fun clients call => rfl⟩
  · intro records q outcome h
    simp [semanticSearch, h]
  · intro q top clients call h
    simp [azureSearch, h]
  · intro q top us clients call h
    simp [hybridSearch, h]

/-- Claim C3, witness: a whitespace-only query and an empty fetch id at
concrete backends. -/
theorem C3_witness :
    semanticSearch [] "  ".toList .failure = .ok ⟨[]⟩ ∧
    azureSearch "  ".toList 5 true (fun _ => .ok []) = .ok ⟨[]⟩ ∧
    hybridSearch "".toList 5 true true (fun _ => .ok []) = .ok ⟨[]⟩ :=
  ⟨C3_theorem.1 [] _ _ (by decide),
   C3_theorem.2.1 _ 5 true _ (by decide),
   C3_theorem.2.2.1 _ 5 true true _ (by decide)⟩

/-- Claim C5: whenever the primary backend fails (client unconfigured
or the call raises), the orchestrated semantic search returns exactly
the result of running the local keyword matcher over the same store and
query. -/
theorem C5_theorem (records : List Record) (q : Str) (outcome : PrimaryOutcome)
    (h : outcome = .noClient ∨ outcome = .failure) :
    semanticSearch records q outcome = .ok (fallbackLocalSearch records q) :=
  semanticSearch_eq_fallback_of_fail records q outcome h

/-- Claim C5, witness: a concrete store and query under a raising
primary backend. -/
theorem C5_witness :
    semanticSearch
      [{ id := "a".toList, title := some "Cats".toList,
         text := some "Cats are mammals".toList, content := none,
         url := none, metadata := none }]
      "cats".toList .failure =
    .ok (fallbackLocalSearch
      [{ id := "a".toList, title := some "Cats".toList,
         text := some "Cats are mammals".toList, content := none,
         url := none, metadata := none }]
      "cats".toList) :=
  C5_theorem _ _ _ (Or.inr rfl)

/-- Claim C4: the keyword matcher accepts a record iff at least one
token of the lower-cased, whitespace-split query is a substring of the
record's lower-cased, space-joined searchable text (title, text,
content, then all metadata values) — OR over tokens; and the fallback's
result list is exactly the projection of the records the matcher
accepts. -/
theorem C4_theorem :
    (∀ (q : Str) (r : Record),
       recordMatches q r = true ↔
         ∃ tok ∈ queryTokens q, tok <:+: searchableText r) ∧
    (∀ (records : List Record) (q : Str),
       (fallbackLocalSearch records q).results =
         (records.filter (fun r => recordMatches q r)).map mkFallbackResult) := by
  constructor
  · intro q r
    unfold recordMatches
    rw [List.any_eq_true]
    constructor
    · rintro ⟨tok, htok, hsub⟩
      exact ⟨tok, htok, (isSubstring_iff tok (searchableText r)).1 hsub⟩
    · rintro ⟨tok, htok, hinf⟩
      exact ⟨tok, htok, (isSubstring_iff tok (searchableText r)).2 hinf⟩
  · intro records q
    unfold fallbackLocalSearch
    by_cases h : (queryTokens q).isEmpty = true
    · rw [if_pos h]
      have hnil : queryTokens q = [] := List.isEmpty_iff.1 h
      have : ∀ r : Record, recordMatches q r = false := by
        intro r
        unfold recordMatches
        rw [hnil]
        rfl
      rw [List.filter_congr (fun r _ => this r)]
      simp
    · rw [if_neg h]

/-- Claim C10: each search adapter emits exactly one result per backend
hit and preserves the backend's order: the `k`-th output comes from the
`k`-th hit, in both the semantic path (with its running index) and the
Azure path, and the full tool outputs on a successful call are exactly
these per-hit projections. -/
theorem C10_theorem :
    (∀ (i : Nat) (items : List VSItem),
       (processVSData i items).length = items.length) ∧
    (∀ (i k : Nat) (items : List VSItem),
       (processVSData i items)[k]? = items[k]?.map (fun it => mkVSResult (i + k) it)) ∧
    (∀ items : List AzureItem,
       (items.map mkAzureSearchItem).length = items.length) ∧
    (∀ (items : List AzureItem) (k : Nat),
       (items.map mkAzureSearchItem)[k]? = items[k]?.map mkAzureSearchItem) ∧
    (∀ (records : List Record) (q : Str) (resp : VSResponse),
       blankQuery q = false →
       semanticSearch records q (.success resp) = .ok ⟨processVSData 0 resp.data⟩) ∧
    (∀ (q : Str) (top : Int) (call : Int → Except Str (List AzureItem)) items,
       blankQuery q = false → call (clampTop top) = .ok items →
       azureSearch q top true call = .ok ⟨items.map mkAzureSearchItem⟩) := by
  refine ⟨?_, ?_, fun items => List.length_map items mkAzureSearchItem,
          fun items k => List.getElem?_map mkAzureSearchItem items k, ?_, ?_⟩
  · intro i items
    induction items generalizing i with
    | nil => rfl
    | cons item rest ih => simp [processVSData, ih]
  · intro i k items
    induction items generalizing i k with
    | nil => simp [processVSData]
    | cons item rest ih =>
      cases k with
      | zero => simp [processVSData]
      | succ k =>
        simp only [processVSData, List.getElem?_cons_succ, ih]
        rw [show i + 1 + k = i + (k + 1) from by omega]
  · intro records q resp h
    simp [semanticSearch, h]
  · intro q top call items h hcall
    simp [azureSearch, h, hcall]

/-- Claim C10, witness: the tool-level conjuncts applied at a concrete
query and a one-hit backend. -/
theorem C10_witness :
    semanticSearch [] "q".toList
        (.success ⟨[{ file_id := none, filename := none, content := [] }]⟩) =
      .ok ⟨processVSData 0 [{ file_id := none, filename := none, content := [] }]⟩ ∧
    azureSearch "q".toList 5 true (fun _ => .ok []) = .ok ⟨[]⟩ :=
  ⟨C10_theorem.2.2.2.2.1 [] _ _ (by decide),
   C10_theorem.2.2.2.2.2 _ 5 _ [] (by decide) rfl⟩

/-- Claim C7, counterexample: the managed-index fetch ignores the
document's `text` field.  For a document with `text = "T"` and
`content = "C"`, its fetch result's text value is `"C"`, not the
present `text` field `"T"`. -/
theorem C7_counterexample :
    List.lookup "text".toList (mkAzureFetchResult
      { id := some "i".toList, title := some "t".toList,
        text := some "T".toList, content := some "C".toList,
        url := none, category := none, author := none, date := none,
        tags := none }) = some (JVal.str "C".toList) ∧
    "C".toList ≠ "T".toList :=
  ⟨rfl, by decide⟩

/-- Claim C7, amended: fetch never snippets.  In the semantic backend
the local path's text is the full `text` field if present else the full
`content` field, and the vector path's text is the full newline-joined
chunk content (with the placeholder when no chunks arrive); the
managed-index backend's fetch text is always the document's `content`
field (null when absent), ignoring its `text` field. -/
theorem C7_theorem :
    (∀ doc : Record,
       List.lookup "text".toList (mkLocalFetchResult doc) =
         some (JVal.str (doc.text.getD (doc.content.getD [])))) ∧
    (∀ (id : Str) (data : List (Option Str)) attrs,
       List.lookup "text".toList (mkVectorFetchResult id data attrs) =
         some (JVal.str (if data.isEmpty then "No content available".toList
                         else joinSep '\n' (data.filterMap (fun x => x))))) ∧
    (∀ doc : AzureDoc,
       List.lookup "text".toList (mkAzureFetchResult doc) =
         some (optToJ doc.content)) :=
  ⟨fun doc => rfl, fun id data attrs => rfl, fun doc => rfl⟩

/-- The local fetch path succeeds exactly when the id is a key of the
post-load lookup, and its not-found error lists the first 5 keys. -/
theorem localFetchPath_ok_iff (records : List Record) (id : Str) :
    (exceptOk (localFetchPath records id) = true ↔
       id ∈ lookupKeys (buildLookup records)) ∧
    (∀ (i : Str) (avail : List Str),
       localFetchPath records id = .error (.notFound i avail) →
       avail = (lookupKeys (buildLookup records)).take 5) := by
  unfold localFetchPath
  cases hl : (buildLookup records).lookup id with
  | none =>
    refine ⟨?_, ?_⟩
    · rw [lookup_eq_none_iff] at hl
      exact iff_of_false (by simp [exceptOk]) hl
    · intro i avail h
      injection h with h'
      injection h' with h1 h2
      exact h2.symm
  | some doc =>
    refine ⟨?_, fun i avail h => by cases h⟩
    have : ((buildLookup records).lookup id).isSome = true := by rw [hl]; rfl
    exact iff_of_true rfl ((lookup_isSome_iff _ _).1 this)

/-- Claim C6, counterexample: with a configured client and a successful
vector-store call, `fetch` succeeds on a `file-` id that is not a key
of the (non-empty) local store, so "succeeds iff id is a key" fails as
stated. -/
theorem C6_counterexample :
    exceptOk (mainFetch
      [{ id := "a".toList, title := none, text := some "t".toList,
         content := none, url := none, metadata := none }]
      "file-x".toList true (.ok [some "c".toList] none)) = true ∧
    "file-x".toList ∉ lookupKeys (buildLookup
      [{ id := "a".toList, title := none, text := some "t".toList,
         content := none, url := none, metadata := none }]) ∧
    ([{ id := "a".toList, title := none, text := some "t".toList,
        content := none, url := none, metadata := none }] : List Record) ≠ [] :=
  ⟨rfl, by decide, by decide⟩

/-- Claim C6, amended: whenever the vector-store path cannot succeed
(client missing, id without the `file-` prefix, or a failing call),
`fetch(id)` with a non-empty id over a non-empty store succeeds iff the
id is a key of the post-load lookup; and every not-found error lists
exactly the first 5 known local identifiers (hence at most 5), never
the whole identifier space. -/
theorem C6_theorem :
    (∀ (records : List Record) (id : Str) (clients : Bool)
       (vector : VectorFetchOutcome),
       records ≠ [] → id ≠ [] →
       (clients = false ∨ "file-".toList.isPrefixOf id = false ∨
         vector = .failure) →
       (exceptOk (mainFetch records id clients vector) = true ↔
          id ∈ lookupKeys (buildLookup records))) ∧
    (∀ (records : List Record) (id : Str) (clients : Bool)
       (vector : VectorFetchOutcome) (i : Str) (avail : List Str),
       mainFetch records id clients vector = .error (.notFound i avail) →
       avail = (lookupKeys (buildLookup records)).take 5 ∧
         avail.length ≤ 5) := by
  have hmain : ∀ (records : List Record) (id : Str) (clients : Bool)
      (vector : VectorFetchOutcome), id ≠ [] →
      (clients = false ∨ "file-".toList.isPrefixOf id = false ∨
        vector = .failure) →
      mainFetch records id clients vector = localFetchPath records id := by
    intro records id clients vector hid hcond
    have hie : id.isEmpty = false := by
      cases id with
      | nil => exact absurd rfl hid
      | cons c cs => rfl
    unfold mainFetch
    rw [hie]
    simp only [Bool.false_eq_true, if_false]
    rcases hcond with hc | hc | hc
    · subst hc
      rw [Bool.and_false]
      simp
    · rw [hc, Bool.false_and]
      simp
    · subst hc
      by_cases hp : ("file-".toList.isPrefixOf id && clients) = true
      · rw [if_pos hp]
      · rw [if_neg hp]
  constructor
  · intro records id clients vector hrec hid hcond
    rw [hmain records id clients vector hid hcond]
    exact (localFetchPath_ok_iff records id).1
  · intro records id clients vector i avail h
    have hid : id ≠ [] := by
      intro he
      subst he
      rw [show mainFetch records [] clients vector = .error .emptyId from rfl] at h
      injection h with h'
      cases h'
    have hloc : localFetchPath records id = .error (.notFound i avail) := by
      have hie : id.isEmpty = false := by
        cases id with
        | nil => exact absurd rfl hid
        | cons c cs => rfl
      unfold mainFetch at h
      rw [hie] at h
      simp only [Bool.false_eq_true, if_false] at h
      by_cases hp : ("file-".toList.isPrefixOf id && clients) = true
      · rw [if_pos hp] at h
        cases vector with
        | ok data attrs => cases h
        | failure => exact h
      · rw [if_neg hp] at h
        exact h
    have := (localFetchPath_ok_iff records id).2 i avail hloc
    refine ⟨this, ?_⟩
    rw [this]
    simp only [List.length_take]
    omega

/-- Claim C6, witness: the amended iff at a one-record store with no
vector path, and the not-found error shape at a missing id. -/
theorem C6_witness :
    (exceptOk (mainFetch
        [{ id := "a".toList, title := none, text := some "t".toList,
           content := none, url := none, metadata := none }]
        "a".toList false .failure) = true ↔
      "a".toList ∈ lookupKeys (buildLookup
        [{ id := "a".toList, title := none, text := some "t".toList,
           content := none, url := none, metadata := none }])) ∧
    (["a".toList] = (lookupKeys (buildLookup
        [{ id := "a".toList, title := none, text := some "t".toList,
           content := none, url := none, metadata := none }])).take 5 ∧
      (["a".toList] : List Str).length ≤ 5) :=
  ⟨C6_theorem.1 _ _ false .failure (by decide) (by decide) (Or.inl rfl),
   C6_theorem.2 _ "b".toList false .failure "b".toList ["a".toList] rfl⟩

/-- Claim C8, counterexample: the managed-index search output contains
the `url` key bound to null even though the source has no url, so
"optional field present iff source non-null and non-empty" fails for
that backend. -/
theorem C8_counterexample :
    List.lookup "url".toList (mkAzureSearchItem
      { id := some "i".toList, title := some "t".toList,
        text := some "x".toList, url := none, score := none,
        category := none, author := none, date := none }) =
      some JVal.null :=
  rfl

/-- Claim C8, amended: the presence-iff-truthy rule holds in the
semantic backend — its local fetch output contains `url`/`metadata`
iff the source value is present and non-empty, and the local fallback's
results carry a url iff the record's url is present and non-empty —
while the managed-index adapter always emits the optional keys
(`url`, `score`, `category`, `author`, `date` in search; `url`,
`metadata` in fetch) whatever the source values are. -/
theorem C8_theorem :
    (∀ doc : Record,
       (((mkLocalFetchResult doc).lookup "url".toList).isSome = true ↔
          ∃ u, doc.url = some u ∧ u ≠ []) ∧
       (((mkLocalFetchResult doc).lookup "metadata".toList).isSome = true ↔
          ∃ m, doc.metadata = some m ∧ m ≠ [])) ∧
    (∀ r : Record,
       (mkFallbackResult r).url ≠ none ↔ ∃ u, r.url = some u ∧ u ≠ []) ∧
    (∀ item : AzureItem,
       ((mkAzureSearchItem item).lookup "url".toList).isSome = true ∧
       ((mkAzureSearchItem item).lookup "score".toList).isSome = true ∧
       ((mkAzureSearchItem item).lookup "category".toList).isSome = true ∧
       ((mkAzureSearchItem item).lookup "author".toList).isSome = true ∧
       ((mkAzureSearchItem item).lookup "date".toList).isSome = true) ∧
    (∀ doc : AzureDoc,
       ((mkAzureFetchResult doc).lookup "url".toList).isSome = true ∧
       ((mkAzureFetchResult doc).lookup "metadata".toList).isSome = true) := by
  refine ⟨?_, ?_, fun item => ⟨rfl, rfl, rfl, rfl, rfl⟩, fun doc => ⟨rfl, rfl⟩⟩
  · intro doc
    obtain ⟨did, dtitle, dtext, dcontent, durl, dmeta⟩ := doc
    constructor
    · rcases durl with _ | u
      · rcases dmeta with _ | m
        · simp +decide [mkLocalFetchResult, List.lookup_cons]
        · by_cases hm : m.isEmpty = true <;>
            simp +decide [mkLocalFetchResult, List.lookup_cons, hm]
      · rcases hu : u with _ | ⟨c, cs⟩
        · rcases dmeta with _ | m
          · simp +decide [mkLocalFetchResult, List.lookup_cons]
          · by_cases hm : m.isEmpty = true <;>
              simp +decide [mkLocalFetchResult, List.lookup_cons, hm]
        · simp +decide [mkLocalFetchResult, List.lookup_cons]
    · rcases dmeta with _ | m
      · rcases durl with _ | u
        · simp +decide [mkLocalFetchResult, List.lookup_cons]
        · by_cases hu : u.isEmpty = true <;>
            simp +decide [mkLocalFetchResult, List.lookup_cons, hu]
      · rcases hm : m with _ | ⟨p, ps⟩
        · rcases durl with _ | u
          · simp +decide [mkLocalFetchResult, List.lookup_cons]
          · by_cases hu : u.isEmpty = true <;>
              simp +decide [mkLocalFetchResult, List.lookup_cons, hu]
        · rcases durl with _ | u
          · simp +decide [mkLocalFetchResult, List.lookup_cons]
          · by_cases hu : u.isEmpty = true <;>
              simp +decide [mkLocalFetchResult, List.lookup_cons, hu]
  · intro r
    obtain ⟨rid, rtitle, rtext, rcontent, rurl, rmeta⟩ := r
    rcases rurl with _ | u
    · simp [mkFallbackResult]
    · rcases hu : u with _ | ⟨c, cs⟩
      · simp [mkFallbackResult]
      · simp [mkFallbackResult]

end MCP
